import Mathlib

/-!
Shallow embedding of the rtl_433 signal pipeline (src/rtl_433.c):
envelope detection, the fixed-point IIR low-pass filter, the bit-packet
primitives, the PWM demodulator state machine, the packet decoder /
printer, and the block callback.  C machine integers are modelled as
Nat / Int with explicit wrap-around where the C types truncate
(uint8, uint16, int16); C `/` and `%` on int are Int.tdiv / Int.tmod
(truncation toward zero), and C arithmetic right shift of a signed int
is floor division by a power of two.
-/

namespace Rtl433

/-- Reinterpretation of an unsigned char value (0..255) as signed char,
as done by the casts `(signed char)var_r` in envelope_detect. -/
def toInt8 (n : Nat) : Int :=
  if n < 128 then (n : Int) else (n : Int) - 256

/-- Truncation of an int value to int16_t, as done by the casts
`(int16_t)(...)` and by stores into the int16_t filter buffer. -/
def toInt16 (z : Int) : Int :=
  Int.emod (z + 32768) 65536 - 32768

/-- Arithmetic right shift of a (possibly negative) int by k bits:
floor division by 2^k, matching gcc behaviour for `>>` on signed int. -/
def sar (z : Int) (k : Nat) : Int :=
  Int.fdiv z (2 ^ k)

/-- One output sample of envelope_detect (rtl_433.c:184-186): each of the
two IQ bytes is XORed with 0x80 (stored back into an unsigned char, hence
the mod 256), reinterpreted as signed char, and the two squares are summed
and stored into a uint16_t slot. -/
def envelope_detect_sample (r_byte i_byte : Nat) : Nat :=
  let var_r := (r_byte ^^^ 0x80) % 256
  let var_i := (i_byte ^^^ 0x80) % 256
  (toInt8 var_i * toInt8 var_i + toInt8 var_r * toInt8 var_r).toNat % 65536

/-- envelope_detect (rtl_433.c:176-188): for i = 0, stride, 2*stride, ...
below len/2 (stride = 2^decimate) emit one envelope sample from the byte
pair at 2*i, 2*i+1. -/
def envelope_detect (buf : List Nat) (decimate : Nat) : List Nat :=
  (List.range (buf.length / 2)).filterMap fun i =>
    if i % (1 <<< decimate) = 0 then
      some (envelope_detect_sample (buf.getD (2 * i) 0) (buf.getD (2 * i + 1) 0))
    else none

/-- BITBUF_ROWS x BITBUF_COLS = 12 x 5 bytes. -/
def empty_bits_buffer : List (List Nat) :=
  List.replicate 12 (List.replicate 5 0)

/-- Read byte (i, j) of the bit packet buffer. -/
def getByte (buf : List (List Nat)) (i j : Nat) : Nat :=
  (buf.getD i []).getD j 0

/-- Write byte (i, j) of the bit packet buffer. -/
def setByte (buf : List (List Nat)) (i j v : Nat) : List (List Nat) :=
  buf.set i ((buf.getD i []).set j v)

/-- struct protocol_state (rtl_433.c:97-115): bit-packet cursor and buffer,
demod state and the per-protocol pwm limits.  All counters are C ints. -/
structure protocol_state where
  bits_col_idx : Int
  bits_row_idx : Int
  bits_bit_col_idx : Int
  bits_buffer : List (List Nat)
  pulse_length : Int
  pulse_count : Int
  pulse_distance : Int
  sample_counter : Int
  start_c : Int
  short_limit : Int
  long_limit : Int
  reset_limit : Int
deriving DecidableEq, Repr

/-- Decoded packet fields as printed by demod_print_bits_packet
(rtl_433.c:220-270).  The temperature lines are kept as the printed
sign flag and the two printed decimal components `abs(t/10)`, `abs(t%10)`;
hrid_hi/hrid_lo are the two hex digits of the `%02x` rendering of rid. -/
structure packet_print where
  button : Int
  first_reading : Int
  temp2 : Int
  temp2_sign : Bool
  temp2_before_dec : Nat
  temp2_after_dec : Nat
  channel : Nat
  id : Nat
  rid : Nat
  hrid_hi : Nat
  hrid_lo : Nat
  temp : Int
  temp_sign : Bool
  temperature_before_dec : Nat
  temperature_after_dec : Nat
  rub_rid : Nat
deriving DecidableEq, Repr

/-- Observable actions of the demodulator: a bit appended by demod_add_bit,
a row advance by demod_next_bits_packet, the two stderr overflow
diagnostics, and a decoded packet print. -/
inductive Event where
  | add_bit (bit : Nat)
  | next_packet
  | col_overflow
  | row_overflow
  | print_packet (r : packet_print)
deriving DecidableEq, Repr

/-- demod_reset_bits_packet (rtl_433.c:190-195). -/
def demod_reset_bits_packet (p : protocol_state) : protocol_state :=
  { p with bits_buffer := empty_bits_buffer
           bits_col_idx := 0
           bits_bit_col_idx := 7
           bits_row_idx := 0 }

/-- demod_add_bit (rtl_433.c:197-208): OR the bit into the current byte at
the current bit position (uint8_t store, hence mod 256), step the bit
cursor down, wrap to the next byte at -1, and clamp the byte index at 4
with a diagnostic. -/
def demod_add_bit (p : protocol_state) (bit : Nat) : protocol_state × List Event :=
  let row := p.bits_row_idx.toNat
  let col := p.bits_col_idx.toNat
  let byte := (getByte p.bits_buffer row col ||| (bit <<< p.bits_bit_col_idx.toNat)) % 256
  let p1 := { p with bits_buffer := setByte p.bits_buffer row col byte
                     bits_bit_col_idx := p.bits_bit_col_idx - 1 }
  if p1.bits_bit_col_idx < 0 then
    let p2 := { p1 with bits_bit_col_idx := 7, bits_col_idx := p1.bits_col_idx + 1 }
    if p2.bits_col_idx > 4 then
      ({ p2 with bits_col_idx := 4 }, [Event.col_overflow])
    else (p2, [])
  else (p1, [])

/-- demod_next_bits_packet (rtl_433.c:210-218): reset the byte and bit
cursor, step the row, clamp the row index at 11 with a diagnostic. -/
def demod_next_bits_packet (p : protocol_state) : protocol_state × List Event :=
  let p1 := { p with bits_col_idx := 0
                     bits_row_idx := p.bits_row_idx + 1
                     bits_bit_col_idx := 7 }
  if p1.bits_row_idx > 11 then
    ({ p1 with bits_row_idx := 11 }, [Event.row_overflow])
  else (p1, [])

/-- Rubicson temperature (rtl_433.c:246-247): `(int16_t)((uint16_t)
(buf[0][1] << 12) | (buf[0][2] << 4))`, arithmetically shifted right
by 4. -/
def rubicson_temp (buf : List (List Nat)) : Int :=
  sar (toInt16 ((((getByte buf 0 1 <<< 12) % 65536) ||| (getByte buf 0 2 <<< 4) : Nat) : Int)) 4

/-- Prologue temperature (rtl_433.c:250-251): `(int16_t)((uint16_t)
(buf[1][2] << 8) | (buf[1][3] & 0xF0))`, arithmetically shifted right
by 4. -/
def prologue_temp (buf : List (List Nat)) : Int :=
  sar (toInt16 ((((getByte buf 1 2 <<< 8) % 65536) ||| (getByte buf 1 3 &&& 0xF0) : Nat) : Int)) 4

/-- demod_print_bits_packet (rtl_433.c:220-270): the decoded fields the
routine prints.  It reads only the bit-packet buffer: the Prologue fields
come from row 1, the Rubicson fields from row 0, in the one shared
routine. -/
def demod_print_bits_packet (buf : List (List Nat)) : packet_print :=
  let temp := rubicson_temp buf
  let temp2 := prologue_temp buf
  let rid := ((getByte buf 1 0 &&& 0x0F) <<< 4) ||| ((getByte buf 1 1 &&& 0xF0) >>> 4)
  { button := if getByte buf 1 1 &&& 0x04 ≠ 0 then 1 else 0
    first_reading := if getByte buf 1 1 &&& 0x08 ≠ 0 then 0 else 1
    temp2 := temp2
    temp2_sign := temp2 < 0
    temp2_before_dec := (Int.tdiv temp2 10).natAbs
    temp2_after_dec := (Int.tmod temp2 10).natAbs
    channel := (getByte buf 1 1 &&& 0x03) + 1
    id := (getByte buf 1 0 &&& 0xF0) >>> 4
    rid := rid
    hrid_hi := (rid >>> 4) % 16
    hrid_lo := rid &&& 0x0F
    temp := temp
    temp_sign := temp < 0
    temperature_before_dec := (Int.tdiv temp 10).natAbs
    temperature_after_dec := (Int.tmod temp 10).natAbs
    rub_rid := getByte buf 0 0 }

/-- pwm_demod loop, first guarded block (rtl_433.c:369-372): a sample
strictly above level_limit enters a pulse and starts the counter. -/
def pwm_pulse_entry (level_limit s : Int) (p : protocol_state) : protocol_state :=
  if s > level_limit then { p with pulse_count := 1, start_c := 1 } else p

/-- pwm_demod loop, second guarded block (rtl_433.c:373-378): a sample
strictly below level_limit while inside a pulse leaves the pulse and
opens a gap. -/
def pwm_gap_start (level_limit s : Int) (p : protocol_state) : protocol_state :=
  if p.pulse_count ≠ 0 ∧ s < level_limit then
    { p with pulse_length := 0, pulse_distance := 1, sample_counter := 0,
             pulse_count := 0 }
  else p

/-- pwm_demod loop, third guarded block (rtl_433.c:379): once counting has
started every sample increments sample_counter. -/
def pwm_count (p : protocol_state) : protocol_state :=
  if p.start_c ≠ 0 then { p with sample_counter := p.sample_counter + 1 } else p

/-- pwm_demod loop, fourth guarded block (rtl_433.c:380-391): a pulse
sample that closes an open gap classifies sample_counter against the
short and long limits: below short_limit append bit 0, below long_limit
append bit 1, otherwise advance to the next packet row. -/
def pwm_classify (level_limit s : Int) (p : protocol_state) :
    protocol_state × List Event :=
  if p.pulse_distance ≠ 0 ∧ s > level_limit then
    let inner :=
      if p.sample_counter < p.short_limit then
        let r := demod_add_bit p 0
        (r.1, Event.add_bit 0 :: r.2)
      else if p.sample_counter < p.long_limit then
        let r := demod_add_bit p 1
        (r.1, Event.add_bit 1 :: r.2)
      else
        let r := demod_next_bits_packet p
        ({ r.1 with pulse_count := 0, sample_counter := 0 },
         Event.next_packet :: r.2)
    ({ inner.1 with pulse_distance := 0 }, inner.2)
  else (p, [])

/-- pwm_demod loop, fifth guarded block (rtl_433.c:392-398): once
sample_counter strictly exceeds reset_limit the packet is printed and all
demod state and the bit packet are reset. -/
def pwm_reset_check (p : protocol_state) : protocol_state × List Event :=
  if p.sample_counter > p.reset_limit then
    (demod_reset_bits_packet
       { p with start_c := 0, sample_counter := 0, pulse_distance := 0 },
     [Event.print_packet (demod_print_bits_packet p.bits_buffer)])
  else (p, [])

/-- pwm_demod, one loop iteration (rtl_433.c:368-399), for one filtered
sample s against level_limit: the five guarded blocks in source order.
The returned events record, in order, the bits appended, the row
advances, the overflow diagnostics and the packet print of this
iteration. -/
def pwm_demod_sample (level_limit : Int) (p : protocol_state) (s : Int) :
    protocol_state × List Event :=
  let p3 := pwm_count (pwm_gap_start level_limit s (pwm_pulse_entry level_limit s p))
  let cls := pwm_classify level_limit s p3
  let rst := pwm_reset_check cls.1
  (rst.1, cls.2 ++ rst.2)

/-- pwm_demod (rtl_433.c:365-400) over a whole block of filtered samples. -/
def pwm_demod (level_limit : Int) (p : protocol_state) (buf : List Int) :
    protocol_state × List Event :=
  buf.foldl
    (fun acc s =>
      let r := pwm_demod_sample level_limit acc.1 s
      (r.1, acc.2 ++ r.2))
    (p, [])

/-- Filter coefficient array a (rtl_433.c:418): {FIX(1.00000), FIX(0.96907)}
with FIX(x) = (int)(x * 2^15), i.e. {32768, 31754}. -/
def a : List Int := [32768, 31754]

/-- Filter coefficient array b (rtl_433.c:419): {FIX(0.015466),
FIX(0.015466)} = {506, 506}. -/
def b : List Int := [506, 506]

/-- One output sample of low_pass_filter (rtl_433.c:426-429):
`((a[1]*y_prev >> 1) + (b[0]*x >> 1) + (b[1]*x_prev >> 1)) >> (F_SCALE-1)`
stored into an int16_t slot.  x and x_prev are uint16_t envelope values,
y_prev the previous int16_t output (y_buf[-1] for the first sample). -/
def low_pass_filter_step (x_prev : Nat) (y_prev : Int) (x : Nat) : Int :=
  toInt16 (sar (sar (a.getD 1 0 * y_prev) 1 + sar (b.getD 0 0 * (x : Int)) 1 +
                sar (b.getD 1 0 * (x_prev : Int)) 1) 14)

/-- The filter loop of low_pass_filter: each output feeds the next step as
y_prev, each input as the next x_prev; the initial x_prev is lp_xmem[0]
and the initial y_prev is y_buf[-1]. -/
def lp_run : Nat → Int → List Nat → List Int
  | _, _, [] => []
  | x_prev, y_prev, x :: xs =>
    let y := low_pass_filter_step x_prev y_prev x
    y :: lp_run x y xs

/-- The filter state that persists between calls: lp_xmem[0]
(rtl_433.c:412, a uint16_t) and y_buf[-1] (the int16_t sample just before
the output buffer, written at rtl_433.c:433). -/
structure lp_state where
  lp_xmem : Nat
  y_prev : Int
deriving DecidableEq, Repr

/-- low_pass_filter (rtl_433.c:421-435): run the loop over x_buf, then
save the carried state exactly as the two memcpy calls do: with
FILTER_ORDER = 1 they copy x_buf[len-2] into lp_xmem and y_buf[len-2]
onto y_buf[-1] (the penultimate samples, although the comment above them
says "Save last sample"). -/
def low_pass_filter (st : lp_state) (x_buf : List Nat) : List Int × lp_state :=
  let y_buf := lp_run st.lp_xmem st.y_prev x_buf
  let len := x_buf.length
  (y_buf,
   { lp_xmem := x_buf.getD (len - 1 - 1) 0
     y_prev := y_buf.getD (len - 1 - 1) 0 })

/-- The fields of struct dm_state (rtl_433.c:117-134) that the block
callback uses, together with the process-global filter state: threshold,
decimation exponent, filter state, the persistent int16_t filter output
buffer f_buf, and the two protocol instances. -/
structure dm_state where
  level_limit : Int
  decimation_level : Nat
  lp_st : lp_state
  f_buf : List Int
  prologue : protocol_state
  rubicson : protocol_state
deriving Repr

/-- The x_buf region the low_pass_filter call in rtlsdr_callback
(rtl_433.c:453) reads: the first len >> (decimation_level + 1) uint16_t
slots of the envelope-detected block. -/
def rtlsdr_callback_filter_input (demod : dm_state) (buf : List Nat) : List Nat :=
  let env := envelope_detect buf demod.decimation_level
  (List.range (buf.length >>> (demod.decimation_level + 1))).map fun i => env.getD i 0

/-- The filtered samples rtlsdr_callback writes into f_buf for this block:
the output of low_pass_filter on a length of len >> (decimation_level+1)
(rtl_433.c:453). -/
def rtlsdr_callback_filtered (demod : dm_state) (buf : List Nat) : List Int :=
  (low_pass_filter demod.lp_st (rtlsdr_callback_filter_input demod buf)).1

/-- The f_buf contents after this block's filter call: the freshly written
samples followed by the untouched remainder of the persistent buffer. -/
def rtlsdr_callback_f_buf (demod : dm_state) (buf : List Nat) : List Int :=
  rtlsdr_callback_filtered demod buf ++
    demod.f_buf.drop (buf.length >>> (demod.decimation_level + 1))

/-- The samples each pwm_demod instance (and pwm_analyze) consumes from
f_buf in rtlsdr_callback: len/2 of them (rtl_433.c:455, 458, 459),
regardless of the decimation level. -/
def rtlsdr_callback_consumed (demod : dm_state) (buf : List Nat) : List Int :=
  let f := rtlsdr_callback_f_buf demod buf
  (List.range (buf.length / 2)).map fun i => f.getD i 0

/-- rtlsdr_callback (rtl_433.c:438-472), decode path (analyze off, no
pending byte budget): envelope-detect the block in place, low-pass filter
len >> (decimation_level+1) samples, then run the prologue and the
rubicson pwm_demod instance in turn over len/2 samples of f_buf. -/
def rtlsdr_callback (demod : dm_state) (buf : List Nat) : dm_state × List Event :=
  let consumed := rtlsdr_callback_consumed demod buf
  let lp := low_pass_filter demod.lp_st (rtlsdr_callback_filter_input demod buf)
  let pro := pwm_demod demod.level_limit demod.prologue consumed
  let rub := pwm_demod demod.level_limit demod.rubicson consumed
  ({ demod with lp_st := lp.2
                f_buf := rtlsdr_callback_f_buf demod buf
                prologue := pro.1
                rubicson := rub.1 },
   pro.2 ++ rub.2)

/-- The rubicson protocol instance as main() builds it (rtl_433.c:498-502):
calloc zeroes every field, the three limits are set to 1744/3500/5000 and
demod_reset_bits_packet initializes the cursor. -/
def rubicson_init : protocol_state :=
  demod_reset_bits_packet
    { bits_col_idx := 0, bits_row_idx := 0, bits_bit_col_idx := 0
      bits_buffer := empty_bits_buffer
      pulse_length := 0, pulse_count := 0, pulse_distance := 0
      sample_counter := 0, start_c := 0
      short_limit := 1744, long_limit := 3500, reset_limit := 5000 }

/-- The prologue protocol instance as main() builds it (rtl_433.c:503-507):
limits 3500/7000/15000. -/
def prologue_init : protocol_state :=
  demod_reset_bits_packet
    { bits_col_idx := 0, bits_row_idx := 0, bits_bit_col_idx := 0
      bits_buffer := empty_bits_buffer
      pulse_length := 0, pulse_count := 0, pulse_distance := 0
      sample_counter := 0, start_c := 0
      short_limit := 3500, long_limit := 7000, reset_limit := 15000 }

/-- A rubicson-profile demodulator that is inside a gap: at least one
pulse has been seen (start_c), the gap is open (pulse_distance), and the
gap has lasted g samples once the closing pulse sample is counted
(sample_counter is incremented before the gap is classified, so it holds
g - 1 when the closing pulse sample arrives). -/
def gap_state (g : Int) : protocol_state :=
  { rubicson_init with pulse_distance := 1, start_c := 1, sample_counter := g - 1 }

/-- A rubicson-profile demodulator counting silence: start_c set,
sample_counter already at c, no open gap classification pending. -/
def silent_state (c : Int) : protocol_state :=
  { rubicson_init with start_c := 1, sample_counter := c }

/-- Bit packet whose row 1 holds the spec scenario bytes
{0x95, 0xA1, 0x00, 0xEA, 0xCC}. -/
def c5_buffer : List (List Nat) :=
  empty_bits_buffer.set 1 [0x95, 0xA1, 0x00, 0xEA, 0xCC]

/-- Bit packet whose row 0 holds the spec scenario bytes
{0xA0, 0x07, 0xB0, 0x00, 0x00}. -/
def c6_buffer : List (List Nat) :=
  empty_bits_buffer.set 0 [0xA0, 0x07, 0xB0, 0x00, 0x00]

/-- A demodulator state one silence sample short of the reset threshold:
a sample equal to level_limit makes sample_counter exceed reset_limit. -/
def c8_state : protocol_state :=
  { rubicson_init with start_c := 1, pulse_distance := 1, sample_counter := 5000 }

/-- Bit packet whose row-1 byte 1 has both channel bits set. -/
def c9_buffer : List (List Nat) :=
  empty_bits_buffer.set 1 [0, 3, 0, 0, 0]

/-- A pipeline state with decimation exponent 1 and default threshold. -/
def demod_dec1 : dm_state :=
  { level_limit := 10000, decimation_level := 1, lp_st := ⟨0, 0⟩
    f_buf := List.replicate 256 0, prologue := prologue_init
    rubicson := rubicson_init }

/-- A 512-byte all-zero sample block. -/
def block512 : List Nat := List.replicate 512 0

/-- One call to a bit-packet primitive: demod_add_bit with a given bit, or
demod_next_bits_packet. -/
inductive BitOp where
  | add (bit : Nat)
  | next
deriving DecidableEq, Repr

/-- Run a sequence of bit-packet primitive calls against a state. -/
def run_bit_ops : protocol_state → List BitOp → protocol_state
  | p, [] => p
  | p, BitOp.add bit :: ops => run_bit_ops (demod_add_bit p bit).1 ops
  | p, BitOp.next :: ops => run_bit_ops (demod_next_bits_packet p).1 ops

/-- The bit-packet write cursor is a valid in-bounds position or the
saturated terminal position: byte index in 0..4, row index in 0..11, bit
index in 0..7 — so the cell the next demod_add_bit writes lies inside the
12-row-by-5-byte buffer. -/
def cursor_inv (p : protocol_state) : Prop :=
  0 ≤ p.bits_col_idx ∧ p.bits_col_idx ≤ 4 ∧
  0 ≤ p.bits_row_idx ∧ p.bits_row_idx ≤ 11 ∧
  0 ≤ p.bits_bit_col_idx ∧ p.bits_bit_col_idx ≤ 7

instance (p : protocol_state) : Decidable (cursor_inv p) := by
  unfold cursor_inv
  infer_instance

/-! Helper lemmas shared by several claims. -/

/-- The filter loop emits exactly one output per input sample. -/
theorem lp_run_length (xs : List Nat) : ∀ (x_prev : Nat) (y_prev : Int),
    (lp_run x_prev y_prev xs).length = xs.length := by
  induction xs with
  | nil => intro x_prev y_prev; rfl
  | cons x xs ih => intro x_prev y_prev; simp [lp_run, ih]

/-- Continuity of the filter loop under the carry the spec intends: if the
state carried into the second block is the LAST input and the LAST output
of the first block, filtering the concatenation equals filtering the
blocks in sequence.  (low_pass_filter instead saves the penultimate
samples, which is what claim C1 is about.) -/
theorem lp_run_append_with_last_carry (xs ys : List Nat) :
    ∀ (x_prev : Nat) (y_prev : Int),
    lp_run x_prev y_prev (xs ++ ys) =
      lp_run x_prev y_prev xs ++
        lp_run (xs.getLastD x_prev) ((lp_run x_prev y_prev xs).getLastD y_prev) ys := by
  induction xs with
  | nil => intro x_prev y_prev; rfl
  | cons x xs ih =>
    intro x_prev y_prev
    simp only [List.cons_append, lp_run, List.getLastD_cons]
    rw [show xs.append ys = xs ++ ys from rfl, ih x]

/-- Masking a byte with 3 keeps its low two bits, so the result is at
most 3. -/
theorem and_three_le (n : Nat) : n &&& 3 ≤ 3 :=
  Nat.and_le_right

/-- toInt8 always lands in the signed-char range once its argument is a
byte value. -/
theorem toInt8_bounds (m : Nat) (h : m < 256) : -128 ≤ toInt8 m ∧ toInt8 m ≤ 127 := by
  unfold toInt8
  split
  · constructor
    · exact le_trans (by norm_num) (Int.ofNat_nonneg m)
    · exact_mod_cast Nat.lt_succ_iff.mp (by assumption)
  · have h1 : (128 : Int) ≤ (m : Int) := by
      have := Nat.le_of_not_lt (by assumption)
      exact_mod_cast this
    have h2 : (m : Int) ≤ 255 := by exact_mod_cast Nat.lt_succ_iff.mp h
    constructor <;> omega

/-- The square of a signed-char value is at most 128 squared. -/
theorem toInt8_sq_le (m : Nat) (h : m < 256) : toInt8 m * toInt8 m ≤ 16384 := by
  obtain ⟨h1, h2⟩ := toInt8_bounds m h
  nlinarith

/-- Per-pair envelope bound as the code computes it. -/
theorem envelope_detect_sample_le (r_byte i_byte : Nat) :
    envelope_detect_sample r_byte i_byte ≤ 32768 := by
  unfold envelope_detect_sample
  have hr := toInt8_sq_le ((r_byte ^^^ 0x80) % 256) (Nat.mod_lt _ (by norm_num))
  have hi := toInt8_sq_le ((i_byte ^^^ 0x80) % 256) (Nat.mod_lt _ (by norm_num))
  have hsum : toInt8 ((i_byte ^^^ 0x80) % 256) * toInt8 ((i_byte ^^^ 0x80) % 256) +
      toInt8 ((r_byte ^^^ 0x80) % 256) * toInt8 ((r_byte ^^^ 0x80) % 256) ≤ 32768 := by
    omega
  calc (toInt8 ((i_byte ^^^ 0x80) % 256) * toInt8 ((i_byte ^^^ 0x80) % 256) +
          toInt8 ((r_byte ^^^ 0x80) % 256) * toInt8 ((r_byte ^^^ 0x80) % 256)).toNat % 65536
      ≤ (toInt8 ((i_byte ^^^ 0x80) % 256) * toInt8 ((i_byte ^^^ 0x80) % 256) +
          toInt8 ((r_byte ^^^ 0x80) % 256) * toInt8 ((r_byte ^^^ 0x80) % 256)).toNat :=
        Nat.mod_le _ _
    _ ≤ 32768 := Int.toNat_le.mpr (le_trans hsum (by norm_num))

/-! The claims. -/

/-- Claim C1 (code bug, evaluation at the failing input): filtering the
concatenation [30000, 0] ++ [0, 0] from the zero filter state differs
from filtering [30000, 0] then [0, 0] with the state low_pass_filter
carries, because the two memcpy calls save the penultimate input and
output samples (x_buf[len-2] = 30000, y_buf[len-2] = 463) instead of the
last ones (0 and 911) that their "Save last sample" comment and the spec
describe.  The one-call outputs are [463, 911, 882, 854]; the sequential
outputs are [463, 911, 911, 882]. -/
theorem C1_filter_carry_discrepancy :
    (low_pass_filter ⟨0, 0⟩ ([30000, 0] ++ [0, 0])).1 = [463, 911, 882, 854] ∧
    (low_pass_filter ⟨0, 0⟩ [30000, 0]).1 ++
        (low_pass_filter (low_pass_filter ⟨0, 0⟩ [30000, 0]).2 [0, 0]).1 =
      [463, 911, 911, 882] ∧
    (low_pass_filter ⟨0, 0⟩ ([30000, 0] ++ [0, 0])).1 ≠
      (low_pass_filter ⟨0, 0⟩ [30000, 0]).1 ++
        (low_pass_filter (low_pass_filter ⟨0, 0⟩ [30000, 0]).2 [0, 0]).1 ∧
    (low_pass_filter ⟨0, 0⟩ [30000, 0]).2 = ⟨30000, 463⟩ ∧
    ([30000, 0] : List Nat).getLastD 0 = 0 ∧
    ((low_pass_filter ⟨0, 0⟩ [30000, 0]).1).getLastD 0 = 911 := by
  decide

/-- Claim C2: with the Rubicson thresholds 1744/3500/5000 installed by
main(), a gap the demodulator classifies with sample_counter = 1000
appends bit 0; with sample_counter = 1744 or 3499 it appends bit 1; with
sample_counter = 3500 it advances to the next row; a silence sample that
raises sample_counter to 5001 resets and prints, while the sample that
raises it to exactly 5000 does not.  (gap_state g holds sample_counter =
g - 1, since pwm_demod increments the counter on the classifying pulse
sample before comparing it with the limits.) -/
theorem C2_rubicson_gap_classification :
    rubicson_init.short_limit = 1744 ∧ rubicson_init.long_limit = 3500 ∧
    rubicson_init.reset_limit = 5000 ∧
    (pwm_demod_sample 10000 (gap_state 1000) 10001).2 = [Event.add_bit 0] ∧
    (pwm_demod_sample 10000 (gap_state 1744) 10001).2 = [Event.add_bit 1] ∧
    (pwm_demod_sample 10000 (gap_state 3499) 10001).2 = [Event.add_bit 1] ∧
    (pwm_demod_sample 10000 (gap_state 3500) 10001).2 = [Event.next_packet] ∧
    (pwm_demod_sample 10000 (silent_state 5000) 0).2 =
      [Event.print_packet (demod_print_bits_packet empty_bits_buffer)] ∧
    (pwm_demod_sample 10000 (silent_state 5000) 0).1.start_c = 0 ∧
    (pwm_demod_sample 10000 (silent_state 5000) 0).1.sample_counter = 0 ∧
    (pwm_demod_sample 10000 (silent_state 4999) 0).2 = [] ∧
    (pwm_demod_sample 10000 (silent_state 4999) 0).1.sample_counter = 5000 := by
  decide

/-- Claim C3, counterexample: the IQ byte pair (0x00, 0x00) is mapped by
envelope_detect to (-128)^2 + (-128)^2 = 32768, which lies outside the
claimed range [0, 32258]. -/
theorem C3_envelope_range_counterexample :
    envelope_detect_sample 0 0 = 32768 ∧ ¬ envelope_detect_sample 0 0 ≤ 32258 ∧
    envelope_detect [0, 0] 0 = [32768] := by
  decide

/-- Claim C3 as amended: every envelope value envelope_detect produces is
at most 32768 (= 128^2 + 128^2; the bytes are signed chars in -128..127,
so 127^2 + 127^2 = 32258 is not the maximum). -/
theorem C3_envelope_range (buf : List Nat) (decimate : Nat) (v : Nat)
    (hv : v ∈ envelope_detect buf decimate) : v ≤ 32768 := by
  unfold envelope_detect at hv
  obtain ⟨i, _, hi⟩ := List.mem_filterMap.mp hv
  by_cases hc : i % (1 <<< decimate) = 0
  · rw [if_pos hc] at hi
    obtain rfl := Option.some_injective _ hi
    exact envelope_detect_sample_le _ _
  · rw [if_neg hc] at hi
    exact absurd hi (by simp)

/-- Witness for C3_envelope_range at the concrete block [0, 0]. -/
theorem C3_envelope_range_witness :
    32768 ∈ envelope_detect [0, 0] 0 ∧ 32768 ≤ 32768 :=
  ⟨by decide, C3_envelope_range [0, 0] 0 32768 (by decide)⟩

/-- Claim C5, counterexample: on row 1 = {0x95, 0xA1, 0x00, 0xEA, 0xCC}
the decoder does not print temp = 23.4: the temperature field
(0x00 << 8) | (0xEA & 0xF0) = 0x00E0 shifted right by 4 is 14 tenths, so
it prints 1.4. -/
theorem C5_prologue_temp_counterexample :
    ¬ ((demod_print_bits_packet c5_buffer).temp2_sign = false ∧
       (demod_print_bits_packet c5_buffer).temp2_before_dec = 23 ∧
       (demod_print_bits_packet c5_buffer).temp2_after_dec = 4) := by
  decide

/-- Claim C5 as amended: on row 1 = {0x95, 0xA1, 0x00, 0xEA, 0xCC} the
decoder prints channel = 2, temp = 1.4, id = 9, rid = 90, hrid = 5a,
where the temperature is ((byte2 << 8) | (byte3 & 0xF0)) reinterpreted as
signed 16-bit and arithmetically shifted right by 4 (here 14 tenths). -/
theorem C5_prologue_decode :
    (demod_print_bits_packet c5_buffer).channel = 2 ∧
    (demod_print_bits_packet c5_buffer).temp2 = 14 ∧
    (demod_print_bits_packet c5_buffer).temp2_sign = false ∧
    (demod_print_bits_packet c5_buffer).temp2_before_dec = 1 ∧
    (demod_print_bits_packet c5_buffer).temp2_after_dec = 4 ∧
    (demod_print_bits_packet c5_buffer).id = 9 ∧
    (demod_print_bits_packet c5_buffer).rid = 90 ∧
    (demod_print_bits_packet c5_buffer).hrid_hi = 0x5 ∧
    (demod_print_bits_packet c5_buffer).hrid_lo = 0xA ∧
    (demod_print_bits_packet c5_buffer).temp2 =
      sar (toInt16 (((0x00 <<< 8) ||| (0xEA &&& 0xF0) : Nat) : Int)) 4 := by
  decide

/-- Claim C6, counterexample: on row 0 = {0xA0, 0x07, 0xB0, 0x00, 0x00}
the extracted Rubicson temperature is not 123 and the print is not 12.3:
bits [12..24) of this row are 0x7B0 = 1968, so it prints 196.8. -/
theorem C6_rubicson_temp_counterexample :
    ¬ (rubicson_temp c6_buffer = 123 ∧
       (demod_print_bits_packet c6_buffer).temperature_before_dec = 12 ∧
       (demod_print_bits_packet c6_buffer).temperature_after_dec = 3) ∧
    rubicson_temp c6_buffer ≠ 123 := by
  decide

/-- Claim C6 as amended: on row 0 = {0xA0, 0x07, 0xB0, 0x00, 0x00} the
Rubicson temperature ((byte1 << 12) | (byte2 << 4) as signed 16-bit,
arithmetically shifted right by 4) is 1968, and the decoder prints
temp = 196.8. -/
theorem C6_rubicson_decode :
    rubicson_temp c6_buffer = 1968 ∧
    (demod_print_bits_packet c6_buffer).temp = 1968 ∧
    (demod_print_bits_packet c6_buffer).temp_sign = false ∧
    (demod_print_bits_packet c6_buffer).temperature_before_dec = 196 ∧
    (demod_print_bits_packet c6_buffer).temperature_after_dec = 8 ∧
    (demod_print_bits_packet c6_buffer).rub_rid = 0xA0 ∧
    rubicson_temp c6_buffer =
      sar (toInt16 ((((0x07 <<< 12) % 65536) ||| (0xB0 <<< 4) : Nat) : Int)) 4 := by
  decide

/-- Claim C9, counterexample: when both low bits of row-1 byte 1 are set
the printed channel is (3 & 0x03) + 1 = 4, outside the claimed range
1..3. -/
theorem C9_channel_counterexample :
    (demod_print_bits_packet c9_buffer).channel = 4 ∧
    ¬ (demod_print_bits_packet c9_buffer).channel ≤ 3 := by
  decide

/-- Claim C9 as amended: for every bit packet, the printed Prologue
channel equals the low two bits of row-1 byte 1 plus one, and lies in
1..4 (4 is reachable, when both bits are set). -/
theorem C9_channel_range (buf : List (List Nat)) :
    (demod_print_bits_packet buf).channel = (getByte buf 1 1 &&& 0x03) + 1 ∧
    1 ≤ (demod_print_bits_packet buf).channel ∧
    (demod_print_bits_packet buf).channel ≤ 4 := by
  refine ⟨rfl, ?_, ?_⟩
  · exact Nat.succ_le_succ (Nat.zero_le _)
  · have h := and_three_le (getByte buf 1 1)
    show (getByte buf 1 1 &&& 0x03) + 1 ≤ 4
    omega

/-- Length of the filtered output per block. -/
theorem rtlsdr_callback_filtered_length (demod : dm_state) (buf : List Nat) :
    (rtlsdr_callback_filtered demod buf).length =
      buf.length >>> (demod.decimation_level + 1) := by
  unfold rtlsdr_callback_filtered low_pass_filter rtlsdr_callback_filter_input
  simp [lp_run_length]

/-- Length of the f_buf region each pwm_demod instance consumes per
block. -/
theorem rtlsdr_callback_consumed_length (demod : dm_state) (buf : List Nat) :
    (rtlsdr_callback_consumed demod buf).length = buf.length / 2 := by
  unfold rtlsdr_callback_consumed
  simp

/-- Claim C4 (code bug, evaluation at the failing input): in
rtlsdr_callback the filter writes exactly len >> (decimation_level + 1)
samples per block, but each pwm_demod instance (and pwm_analyze) is
invoked over len/2 samples of f_buf.  The two lengths agree only at
decimation level 0: with decimation_level = 1 and a 512-byte block the
filter writes 128 samples while each consumer reads 256, half of which
this block's filter pass never wrote. -/
theorem C4_filtered_vs_consumed :
    (∀ (demod : dm_state) (buf : List Nat),
        (rtlsdr_callback_filtered demod buf).length =
          buf.length >>> (demod.decimation_level + 1)) ∧
    (∀ (demod : dm_state) (buf : List Nat),
        (rtlsdr_callback_consumed demod buf).length = buf.length / 2) ∧
    (rtlsdr_callback_filtered demod_dec1 block512).length = 128 ∧
    (rtlsdr_callback_consumed demod_dec1 block512).length = 256 ∧
    (128 : Nat) ≠ 256 := by
  refine ⟨rtlsdr_callback_filtered_length, rtlsdr_callback_consumed_length, ?_, ?_, by decide⟩
  · rw [rtlsdr_callback_filtered_length]
    simp only [block512, demod_dec1, List.length_replicate]
    decide
  · rw [rtlsdr_callback_consumed_length]
    simp only [block512, List.length_replicate]

/-- demod_add_bit keeps the cursor invariant. -/
theorem demod_add_bit_cursor (p : protocol_state) (bit : Nat) (h : cursor_inv p) :
    cursor_inv (demod_add_bit p bit).1 := by
  obtain ⟨h1, h2, h3, h4, h5, h6⟩ := h
  unfold demod_add_bit cursor_inv
  dsimp only
  split_ifs <;> simp_all <;> omega

/-- demod_next_bits_packet keeps the cursor invariant. -/
theorem demod_next_bits_packet_cursor (p : protocol_state) (h : cursor_inv p) :
    cursor_inv (demod_next_bits_packet p).1 := by
  obtain ⟨h1, h2, h3, h4, h5, h6⟩ := h
  unfold demod_next_bits_packet cursor_inv
  dsimp only
  split_ifs <;> simp_all <;> omega

/-- demod_reset_bits_packet establishes the cursor invariant. -/
theorem demod_reset_bits_packet_cursor (p : protocol_state) :
    cursor_inv (demod_reset_bits_packet p) := by
  unfold demod_reset_bits_packet cursor_inv
  refine ⟨?_, ?_, ?_, ?_, ?_, ?_⟩ <;> simp

/-- Any sequence of bit-packet primitive calls keeps the cursor
invariant. -/
theorem run_bit_ops_cursor (ops : List BitOp) :
    ∀ p : protocol_state, cursor_inv p → cursor_inv (run_bit_ops p ops) := by
  induction ops with
  | nil => intro p h; exact h
  | cons op ops ih =>
    intro p h
    cases op with
    | add bit => exact ih _ (demod_add_bit_cursor p bit h)
    | next => exact ih _ (demod_next_bits_packet_cursor p h)

/-- Claim C7: starting from a reset packet, any sequence of demod_add_bit
and demod_next_bits_packet calls keeps the write cursor at a valid or
saturated-terminal position (byte index 0..4, row index 0..11, bit index
0..7); under that invariant the cell demod_add_bit writes lies inside the
12-row-by-5-byte buffer, the overflow diagnostics are emitted exactly
when a wrap would leave the terminal byte or row, and after overflow
subsequent calls keep targeting the terminal byte / row. -/
theorem C7_bit_cursor_clamped :
    (∀ (p : protocol_state) (ops : List BitOp),
        cursor_inv (run_bit_ops (demod_reset_bits_packet p) ops)) ∧
    (∀ (p : protocol_state) (bit : Nat), cursor_inv p →
        p.bits_row_idx.toNat < 12 ∧ p.bits_col_idx.toNat < 5 ∧
        cursor_inv (demod_add_bit p bit).1 ∧
        ((demod_add_bit p bit).2 = [Event.col_overflow] ↔
            p.bits_bit_col_idx = 0 ∧ p.bits_col_idx = 4) ∧
        (p.bits_col_idx = 4 →
            (demod_add_bit p bit).1.bits_col_idx = 4 ∧
            (demod_add_bit p bit).1.bits_row_idx = p.bits_row_idx)) ∧
    (∀ p : protocol_state, cursor_inv p →
        cursor_inv (demod_next_bits_packet p).1 ∧
        ((demod_next_bits_packet p).2 = [Event.row_overflow] ↔
            p.bits_row_idx = 11) ∧
        (p.bits_row_idx = 11 → (demod_next_bits_packet p).1.bits_row_idx = 11)) := by
  refine ⟨fun p ops => run_bit_ops_cursor ops _ (demod_reset_bits_packet_cursor p),
          fun p bit h => ?_, fun p h => ?_⟩
  · obtain ⟨h1, h2, h3, h4, h5, h6⟩ := h
    refine ⟨by omega, by omega, demod_add_bit_cursor p bit ⟨h1, h2, h3, h4, h5, h6⟩, ?_, ?_⟩
    · unfold demod_add_bit
      dsimp only
      split_ifs <;> simp_all <;> omega
    · intro hc
      unfold demod_add_bit
      dsimp only
      split_ifs <;> simp_all <;> omega
  · obtain ⟨h1, h2, h3, h4, h5, h6⟩ := h
    refine ⟨demod_next_bits_packet_cursor p ⟨h1, h2, h3, h4, h5, h6⟩, ?_, ?_⟩
    · unfold demod_next_bits_packet
      dsimp only
      split_ifs <;> simp_all <;> omega
    · intro hr
      unfold demod_next_bits_packet
      dsimp only
      split_ifs <;> simp_all

/-- The three demod flags claim C8 names, before and after one sample. -/
def pwm_flags (p : protocol_state) : Int × Int × Int :=
  (p.pulse_count, p.pulse_distance, p.start_c)

/-- A sample exactly at level_limit fails the strict comparison of the
pulse-entry block. -/
theorem pwm_pulse_entry_at_level (lv : Int) (p : protocol_state) :
    pwm_pulse_entry lv lv p = p := by
  unfold pwm_pulse_entry
  rw [if_neg (lt_irrefl lv)]

/-- A sample exactly at level_limit fails the strict comparison of the
pulse-exit block. -/
theorem pwm_gap_start_at_level (lv : Int) (p : protocol_state) :
    pwm_gap_start lv lv p = p := by
  unfold pwm_gap_start
  rw [if_neg]
  rintro ⟨-, hlt⟩
  exact lt_irrefl lv hlt

/-- A sample exactly at level_limit does not close a gap either. -/
theorem pwm_classify_at_level (lv : Int) (p : protocol_state) :
    pwm_classify lv lv p = (p, []) := by
  unfold pwm_classify
  rw [if_neg]
  rintro ⟨-, hlt⟩
  exact lt_irrefl lv hlt

/-- The silence reset does not fire while sample_counter is at most
reset_limit. -/
theorem pwm_reset_check_no_fire (p : protocol_state)
    (h : p.sample_counter ≤ p.reset_limit) : pwm_reset_check p = (p, []) := by
  unfold pwm_reset_check
  rw [if_neg (not_lt.mpr h)]

/-- Counting a sample leaves the three flags alone. -/
theorem pwm_count_flags (p : protocol_state) :
    pwm_flags (pwm_count p) = pwm_flags p := by
  unfold pwm_count pwm_flags
  split_ifs <;> rfl

/-- The counter after the counting block. -/
theorem pwm_count_sample_counter (p : protocol_state) :
    (pwm_count p).sample_counter =
      if p.start_c ≠ 0 then p.sample_counter + 1 else p.sample_counter := by
  unfold pwm_count
  split_ifs <;> rfl

/-- The counting block does not touch reset_limit. -/
theorem pwm_count_reset_limit (p : protocol_state) :
    (pwm_count p).reset_limit = p.reset_limit := by
  unfold pwm_count
  split_ifs <;> rfl

/-- Claim C8 as amended: a sample exactly equal to level_limit neither
enters nor leaves a pulse — pulse_count, pulse_distance and start_c are
unchanged — provided the sample does not push sample_counter past
reset_limit (the silence reset fires on any sample, clears pulse_distance
and start_c, and is what the counterexample exhibits). -/
theorem C8_level_equal_holds (p : protocol_state) (level_limit : Int)
    (h : (if p.start_c ≠ 0 then p.sample_counter + 1 else p.sample_counter) ≤
        p.reset_limit) :
    pwm_flags (pwm_demod_sample level_limit p level_limit).1 = pwm_flags p := by
  unfold pwm_demod_sample
  dsimp only
  rw [pwm_pulse_entry_at_level, pwm_gap_start_at_level, pwm_classify_at_level]
  dsimp only
  rw [pwm_reset_check_no_fire]
  · exact pwm_count_flags p
  · rw [pwm_count_sample_counter, pwm_count_reset_limit]
    exact h

/-- Witness for C8_level_equal_holds at rubicson_init and the default
threshold 10000. -/
theorem C8_level_equal_holds_witness :
    ((if rubicson_init.start_c ≠ 0 then rubicson_init.sample_counter + 1
      else rubicson_init.sample_counter) ≤ rubicson_init.reset_limit) ∧
    pwm_flags (pwm_demod_sample 10000 rubicson_init 10000).1 =
      pwm_flags rubicson_init :=
  ⟨by decide, C8_level_equal_holds rubicson_init 10000 (by decide)⟩

/-- Claim C8, counterexample: from a gap state whose sample_counter is
already at reset_limit = 5000, the sample equal to level_limit (10000)
increments the counter to 5001 and fires the silence reset, which clears
pulse_distance and start_c — they are not unchanged. -/
theorem C8_level_equal_counterexample :
    ¬ ((pwm_demod_sample 10000 c8_state 10000).1.pulse_count = c8_state.pulse_count ∧
       (pwm_demod_sample 10000 c8_state 10000).1.pulse_distance = c8_state.pulse_distance ∧
       (pwm_demod_sample 10000 c8_state 10000).1.start_c = c8_state.start_c) := by
  decide

/-- demod_add_bit emits no packet print. -/
theorem print_notin_demod_add_bit (p : protocol_state) (bit : Nat) (r : packet_print) :
    Event.print_packet r ∉ (demod_add_bit p bit).2 := by
  unfold demod_add_bit
  dsimp only
  split_ifs <;> simp

/-- demod_next_bits_packet emits no packet print. -/
theorem print_notin_demod_next (p : protocol_state) (r : packet_print) :
    Event.print_packet r ∉ (demod_next_bits_packet p).2 := by
  unfold demod_next_bits_packet
  dsimp only
  split_ifs <;> simp

/-- Gap classification emits bits, row advances and overflow diagnostics,
never a packet print. -/
theorem print_notin_pwm_classify (lv s : Int) (p : protocol_state) (r : packet_print) :
    Event.print_packet r ∉ (pwm_classify lv s p).2 := by
  unfold pwm_classify
  dsimp only
  split_ifs <;>
    simp [print_notin_demod_add_bit, print_notin_demod_next]

/-- A packet print in the reset block's events means the reset fired, and
the printed record is demod_print_bits_packet of the buffer at that
moment. -/
theorem pwm_reset_check_print (p : protocol_state) (r : packet_print)
    (hmem : Event.print_packet r ∈ (pwm_reset_check p).2) :
    r = demod_print_bits_packet p.bits_buffer ∧
    p.reset_limit < p.sample_counter := by
  unfold pwm_reset_check at hmem
  split_ifs at hmem with hf
  · simp only [List.mem_singleton, Event.print_packet.injEq] at hmem
    exact ⟨hmem, hf⟩
  · simp at hmem

/-- The first three pwm_demod blocks touch neither the bit packet nor the
limits. -/
theorem pwm_pre_fields (lv s : Int) (p : protocol_state) :
    (pwm_count (pwm_gap_start lv s (pwm_pulse_entry lv s p))).bits_buffer =
        p.bits_buffer ∧
    (pwm_count (pwm_gap_start lv s (pwm_pulse_entry lv s p))).short_limit =
        p.short_limit ∧
    (pwm_count (pwm_gap_start lv s (pwm_pulse_entry lv s p))).long_limit =
        p.long_limit ∧
    (pwm_count (pwm_gap_start lv s (pwm_pulse_entry lv s p))).reset_limit =
        p.reset_limit := by
  unfold pwm_count pwm_gap_start pwm_pulse_entry
  split_ifs <;> exact ⟨rfl, rfl, rfl, rfl⟩

/-- demod_add_bit does not touch the demod counters or limits. -/
theorem demod_add_bit_demod_fields (p : protocol_state) (bit : Nat) :
    (demod_add_bit p bit).1.sample_counter = p.sample_counter ∧
    (demod_add_bit p bit).1.reset_limit = p.reset_limit := by
  unfold demod_add_bit
  dsimp only
  split_ifs <;> exact ⟨rfl, rfl⟩

/-- demod_next_bits_packet only moves the cursor, not the stored bytes. -/
theorem demod_next_bits_packet_buffer (p : protocol_state) :
    (demod_next_bits_packet p).1.bits_buffer = p.bits_buffer := by
  unfold demod_next_bits_packet
  dsimp only
  split_ifs <;> rfl

/-- When the limits are ordered (short <= long <= reset) and the silence
reset fires right after classification, the classification cannot have
appended a bit this sample, so the bit packet is unchanged. -/
theorem pwm_classify_buffer (lv s : Int) (p : protocol_state)
    (hsl : p.short_limit ≤ p.long_limit) (hlr : p.long_limit ≤ p.reset_limit)
    (hfire : (pwm_classify lv s p).1.reset_limit <
        (pwm_classify lv s p).1.sample_counter) :
    (pwm_classify lv s p).1.bits_buffer = p.bits_buffer := by
  unfold pwm_classify at hfire ⊢
  dsimp only at hfire ⊢
  split_ifs at hfire ⊢ with h1 h2 h3
  · obtain ⟨hc, hr⟩ := demod_add_bit_demod_fields p 0
    rw [hc, hr] at hfire
    omega
  · obtain ⟨hc, hr⟩ := demod_add_bit_demod_fields p 1
    rw [hc, hr] at hfire
    omega
  · exact demod_next_bits_packet_buffer p
  · rfl

set_option maxRecDepth 4096 in
/-- Claim C10: whenever a pwm_demod step of an instance with ordered
limits (as both the rubicson and the prologue instance have) emits a
packet print, the printed record is demod_print_bits_packet applied to
that instance's bit packet, and that one shared routine carries both the
Prologue fields decoded from row 1 and the Rubicson fields decoded from
row 0 of the same packet — whichever protocol's demodulator terminated
the packet. -/
theorem C10_shared_print_routine (lv : Int) (p : protocol_state) (s : Int)
    (r : packet_print)
    (hsl : p.short_limit ≤ p.long_limit) (hlr : p.long_limit ≤ p.reset_limit)
    (hmem : Event.print_packet r ∈ (pwm_demod_sample lv p s).2) :
    r = demod_print_bits_packet p.bits_buffer ∧
    r.button = (if getByte p.bits_buffer 1 1 &&& 0x04 ≠ 0 then 1 else 0) ∧
    r.first_reading = (if getByte p.bits_buffer 1 1 &&& 0x08 ≠ 0 then 0 else 1) ∧
    r.temp2 = prologue_temp p.bits_buffer ∧
    r.channel = (getByte p.bits_buffer 1 1 &&& 0x03) + 1 ∧
    r.id = (getByte p.bits_buffer 1 0 &&& 0xF0) >>> 4 ∧
    r.rid = (((getByte p.bits_buffer 1 0 &&& 0x0F) <<< 4) |||
        ((getByte p.bits_buffer 1 1 &&& 0xF0) >>> 4)) ∧
    r.temp = rubicson_temp p.bits_buffer ∧
    r.rub_rid = getByte p.bits_buffer 0 0 := by
  obtain ⟨hbuf, hshort, hlong, hreset⟩ := pwm_pre_fields lv s p
  unfold pwm_demod_sample at hmem
  dsimp only at hmem
  rcases List.mem_append.mp hmem with hcls | hrst
  · exact absurd hcls (print_notin_pwm_classify lv s _ r)
  · obtain ⟨hr, hfire⟩ := pwm_reset_check_print _ r hrst
    have hb : (pwm_classify lv s
        (pwm_count (pwm_gap_start lv s (pwm_pulse_entry lv s p)))).1.bits_buffer =
        p.bits_buffer := by
      rw [pwm_classify_buffer lv s _ (by rw [hshort, hlong]; exact hsl)
        (by rw [hlong, hreset]; exact hlr) hfire]
      exact hbuf
    rw [hb] at hr
    subst hr
    refine ⟨rfl, ?_, ?_, ?_, ?_, ?_, ?_, ?_, ?_⟩ <;> simp [demod_print_bits_packet]

/-- Witness for C10_shared_print_routine: the rubicson instance, counting
silence at its reset limit, fed one quiet sample. -/
theorem C10_shared_print_routine_witness :
    (silent_state 5000).short_limit ≤ (silent_state 5000).long_limit ∧
    (silent_state 5000).long_limit ≤ (silent_state 5000).reset_limit ∧
    Event.print_packet (demod_print_bits_packet empty_bits_buffer) ∈
      (pwm_demod_sample 10000 (silent_state 5000) 0).2 ∧
    (demod_print_bits_packet empty_bits_buffer =
        demod_print_bits_packet (silent_state 5000).bits_buffer ∧
      (demod_print_bits_packet empty_bits_buffer).button =
        (if getByte (silent_state 5000).bits_buffer 1 1 &&& 0x04 ≠ 0 then 1 else 0) ∧
      (demod_print_bits_packet empty_bits_buffer).first_reading =
        (if getByte (silent_state 5000).bits_buffer 1 1 &&& 0x08 ≠ 0 then 0 else 1) ∧
      (demod_print_bits_packet empty_bits_buffer).temp2 =
        prologue_temp (silent_state 5000).bits_buffer ∧
      (demod_print_bits_packet empty_bits_buffer).channel =
        (getByte (silent_state 5000).bits_buffer 1 1 &&& 0x03) + 1 ∧
      (demod_print_bits_packet empty_bits_buffer).id =
        (getByte (silent_state 5000).bits_buffer 1 0 &&& 0xF0) >>> 4 ∧
      (demod_print_bits_packet empty_bits_buffer).rid =
        (((getByte (silent_state 5000).bits_buffer 1 0 &&& 0x0F) <<< 4) |||
          ((getByte (silent_state 5000).bits_buffer 1 1 &&& 0xF0) >>> 4)) ∧
      (demod_print_bits_packet empty_bits_buffer).temp =
        rubicson_temp (silent_state 5000).bits_buffer ∧
      (demod_print_bits_packet empty_bits_buffer).rub_rid =
        getByte (silent_state 5000).bits_buffer 0 0) :=
  ⟨by decide, by decide, by decide,
   C10_shared_print_routine 10000 (silent_state 5000) 0
     (demod_print_bits_packet empty_bits_buffer)
     (by decide) (by decide) (by decide)⟩

end Rtl433
